import Mathlib

/-!
Verification of the vibeflows_ai Flow & Agent Execution Engine.

Shallow embedding of the runtime in `src/flow_runner.py`,
`src/agent_runner.py` and `src/edge_condition_checker.py`.
Python dicts are association lists, Python values are the JSON-like
inductive `Val`, Python exceptions and `sys.exit` are the outcome
type `POut` (an `except Exception` handler catches `POut.raise` but not
`POut.exit`, mirroring the fact that `SystemExit` does not derive from
`Exception`).  The Anthropic LLM call in `edge_condition_checker.py` and
Python's `json.loads` are abstracted as parameters (`AIEnv`), since they
are external services from the engine's point of view.
-/

namespace VibeFlows

/-- JSON-like Python values flowing through the engine. -/
inductive Val where
  | vNull : Val
  | vBool : Bool → Val
  | vInt : Int → Val
  | vStr : String → Val
  | vList : List Val → Val
  | vDict : List (String × Val) → Val

instance : Inhabited Val := ⟨Val.vNull⟩

/-- First-match lookup in an association list (Python `d[k]` / `d.get(k)`;
dicts built by the engine have unique keys). -/
def alookup {α : Type} : List (String × α) → String → Option α
  | [], _ => none
  | (k', v) :: rest, k => if k' = k then some v else alookup rest k

/-- Python `d[k] = v` on an association list: replace the first binding of
`k`, or append a new one. -/
def aset {α : Type} : List (String × α) → String → α → List (String × α)
  | [], k, v => [(k, v)]
  | (k', v') :: rest, k, v =>
      if k' = k then (k, v) :: rest else (k', v') :: aset rest k v

/-- Python dict merge `dict(a, **b)` a.k.a. `\x7b**a, **b\x7d`: keys of `a`
in order, values updated from `b`, then keys of `b` not in `a`, in order. -/
def pyMerge (a b : List (String × Val)) : List (String × Val) :=
  (a.map (fun p => (p.1, (alookup b p.1).getD p.2)))
    ++ b.filter (fun p => (alookup a p.1).isNone)

/-- `create_node_wrapper` (src/agent_runner.py:79-85): wraps a node
function so that its static `node_params` are merged under the dynamic
`input_data` before invocation. -/
def create_node_wrapper {α : Type} (original_function : List (String × Val) → α)
    (node_params : List (String × Val)) : List (String × Val) → α :=
  fun input_data => original_function (pyMerge node_params input_data)

/-- Python truthiness of a `Val` (`if x:`). -/
def truthy : Val → Bool
  | .vNull => false
  | .vBool b => b
  | .vInt n => n ≠ 0
  | .vStr s => s ≠ ""
  | .vList xs => ¬xs.isEmpty
  | .vDict fs => ¬fs.isEmpty

/-- ASCII lower-casing of one character, models Python `str.lower` on the
ASCII range used by the checker. -/
def lowerChar (c : Char) : Char :=
  if c.isUpper then c.toLower else c

/-- Is this character stripped by Python `str.strip()`? -/
def isStripped (c : Char) : Bool :=
  c = ' ' ∨ c = '\t' ∨ c = '\n' ∨ c = '\r'

/-- Python `s.strip()` (whitespace from both ends). -/
def pyStrip (s : String) : String :=
  ⟨((s.data.dropWhile isStripped).reverse.dropWhile isStripped).reverse⟩

/-- Python `s.lower()`. -/
def pyLower (s : String) : String :=
  ⟨s.data.map lowerChar⟩

/-- Outcome of the Anthropic call in `check_edge_condition`: either the
text of the model reply, or an exception raised anywhere in the `try`
block (client creation, network error, empty reply, ...). -/
inductive OracleOut where
  | reply : String → OracleOut
  | excn : String → OracleOut

/-- External services used by `check_edge_condition`: the LLM call and
Python's `json.loads` (`none` models a `json.JSONDecodeError` or any other
exception raised by the load, which the code swallows). -/
structure AIEnv where
  call : String → Val → OracleOut
  jsonLoads : String → Option Val

/-- `check_edge_condition` (src/edge_condition_checker.py:6-70).
An empty (or whitespace-only) condition passes without consulting the
LLM; otherwise the LLM verdict text is stripped, lower-cased and parsed:
literal `true`/`false` first, then `json.loads` (whose value is returned
as-is, hence the `Val` return type: the Python function can return a
non-boolean), and any failure yields `False`. -/
def check_edge_condition (ai : AIEnv) (condition : String) (output_data : Val) : Val :=
  if condition = "" ∨ pyStrip condition = "" then .vBool true
  else
    match ai.call condition output_data with
    | .excn _ => .vBool false
    | .reply text =>
        let result_text := pyLower (pyStrip text)
        if result_text = "true" then .vBool true
        else if result_text = "false" then .vBool false
        else
          match ai.jsonLoads result_text with
          | some v => v
          | none => .vBool false

/-- An edge of a flow graph; `none` fields model absent (or `null`) JSON
keys. -/
structure Edge where
  source : Option String
  target : Option String
  condition : Option String
deriving Repr, DecidableEq, Inhabited

/-- `get_next_node_by_conditions` (src/edge_condition_checker.py:72-94):
keep the edges whose `source` equals the current node id, in declared
order; return the `target` of the first edge whose condition check is
truthy, `none` when no condition matches. -/
def get_next_node_by_conditions (ai : AIEnv) (edges : List Edge)
    (current_node_id : String) (output_data : Val) : Option String :=
  let valid_edges := edges.filter (fun e => e.source = some current_node_id)
  match valid_edges.find?
      (fun e => truthy (check_edge_condition ai (e.condition.getD "") output_data)) with
  | some e => e.target
  | none => none

/-- Outcome of a Python computation: normal return, a raised exception
(caught by `except Exception`), a `sys.exit` (a `SystemExit`, which an
`except Exception` handler does NOT catch), or `stuck`, an artifact of the
model marking exhaustion of the nested-flow recursion fuel (never reached
in any theorem below). -/
inductive POut (α : Type) where
  | ok : α → POut α
  | raise : String → POut α
  | exit : Nat → POut α
  | stuck : POut α

/-- A materialized Python function: takes the input value, may return,
raise, or exit the process. -/
def PyFun : Type := Val → POut Val

/-- A source-code fragment as the engine sees it: `exec`-ing it either
binds a list of top-level names to functions, or raises (a malformed
fragment, a failed module load, ...). -/
inductive Fragment where
  | frag : List (String × PyFun) → Fragment
  | bad : String → Fragment

/-- One entry of `AgentSpec.nodes` (the documents in the `agents`
collection): `none` models an absent key, and an empty-string name or an
empty fragment are treated as absent by the loader's truthiness tests. -/
structure AgentNode where
  name : Option String
  func : Option Fragment
  parameters : List (String × Val)

/-- An agent document: its display/entry name, its node functions and the
orchestrating agent `function` fragment. -/
structure AgentSpec where
  name : Option String
  nodes : List AgentNode
  func : Option Fragment

/-- The shared `globals_dict` registry that fragments are `exec`-ed into. -/
def Registry : Type := List (String × PyFun)

/-- Load the bindings of one successfully `exec`-ed fragment into the
registry (later definitions overwrite earlier ones of the same name). -/
def loadDefs (g : Registry) (ds : List (String × PyFun)) : Registry :=
  ds.foldl (fun acc p => aset acc p.1 p.2) g

/-- Loop of `extract_and_execute_functions` over `agent_spec['nodes']`
(src/agent_runner.py:46-62): record each node's parameters, `exec` its
function into the registry; an `exec` failure calls `sys.exit(1)`. -/
def loadAgentNodes : List AgentNode → List (String × List (String × Val)) → Registry →
    POut (List (String × List (String × Val)) × Registry)
  | [], params, g => .ok (params, g)
  | n :: rest, params, g =>
      match n.name, n.func with
      | some nm, some fr =>
          if nm = "" then loadAgentNodes rest params g
          else
            match fr with
            | .frag ds => loadAgentNodes rest (aset params nm n.parameters) (loadDefs g ds)
            | .bad _ => .exit 1
      | _, _ => loadAgentNodes rest params g

/-- `extract_and_execute_functions` (src/agent_runner.py:39-77): load all
node functions, then the agent function, into the registry; any failure
(including a missing agent function) calls `sys.exit(1)`. -/
def extract_and_execute_functions (agent_spec : AgentSpec) (g : Registry) :
    POut (List (String × List (String × Val)) × Registry) :=
  match loadAgentNodes agent_spec.nodes [] g with
  | .ok (params, g') =>
      match agent_spec.func with
      | some (.frag ds) => .ok (params, loadDefs g' ds)
      | some (.bad _) => .exit 1
      | none => .exit 1
  | .raise m => .raise m
  | .exit c => .exit c
  | .stuck => .stuck

/-- `create_node_wrapper` lifted to `Val`-valued functions as used in the
registry: a non-dict dynamic input makes the Python `\x7b**params,
**input\x7d` merge raise a `TypeError`. -/
def wrapNodeFun (f : PyFun) (params : List (String × Val)) : PyFun :=
  fun v =>
    match v with
    | .vDict d => f (.vDict (pyMerge params d))
    | _ => .raise "TypeError"

/-- `wrap_node_functions` (src/agent_runner.py:87-93): replace each
registered node function by its parameter-bound wrapper. -/
def wrap_node_functions (node_parameters : List (String × List (String × Val)))
    (g : Registry) : Registry :=
  node_parameters.foldl
    (fun acc p =>
      match alookup acc p.1 with
      | some f => aset acc p.1 (wrapNodeFun f p.2)
      | none => acc)
    g

/-- `run_agent` (src/agent_runner.py:95-142) over an `agents` collection
(id-to-document list).  A missing agent, a fragment-load failure or a
missing entry-function name all call `sys.exit(1)`; an exception raised by
the agent function itself is re-raised to the caller. -/
def run_agent (agents : List (String × AgentSpec)) (agent_id : String)
    (input_data : Val) : POut Val :=
  match alookup agents agent_id with
  | none => .exit 1
  | some spec =>
      match extract_and_execute_functions spec [] with
      | .ok (params, g) =>
          let g' := wrap_node_functions params g
          let agent_function_name := spec.name.getD "unknown"
          match alookup g' agent_function_name with
          | none => .exit 1
          | some f => f input_data
      | .raise m => .raise m
      | .exit c => .exit c
      | .stuck => .stuck

/-- A node of a flow document; `none` fields model absent keys. -/
structure FlowNode where
  id : String
  name : Option String
  type : Option String
  agent_id : Option String
  flow_id : Option String

/-- A flow document: `entry_point` is `none` when the key is absent. -/
structure Flow where
  entry_point : Option String
  nodes : List FlowNode
  edges : List Edge

/-- One element of a run's `execution_log` as pushed by `flow_runner`
(src/flow_runner.py:80-87 and 102-109): a success entry carries
`output_data`, a failed entry carries `error`. -/
structure LogEntry where
  node_id : String
  node_name : String
  input_data : Val
  output_data : Option Val
  error : Option String
  status : String
  iteration : Nat

/-- The run document in the `runs` collection, as `flow_runner` leaves it
after its MongoDB inserts/updates. -/
structure RunRecord where
  status : String
  input_data : Val
  execution_log : List LogEntry
  current_data : Option Val
  final_data : Option Val
  error : Option String

/-- The dict returned by `flow_runner`: the failure return
(src/flow_runner.py:119-125) has no `final_data` and no `iterations` key,
the normal return (src/flow_runner.py:144-150) has no `error` and no
`last_node` key. -/
structure FlowResult where
  status : String
  flow_id : String
  error : Option String
  final_data : Option Val
  iterations : Option Nat
  last_node : Option String

/-- Net effect of one `flow_runner` call: a normal return together with
the run document left in the store, a process termination (`sys.exit`
escaping, record left as inserted), an exception propagating to the
caller (record present only if already inserted), or fuel exhaustion of
the model. -/
inductive RunResult where
  | ok : FlowResult → RunRecord → RunResult
  | exit : Nat → RunRecord → RunResult
  | err : String → Option RunRecord → RunResult
  | stuck : RunResult

/-- The MongoDB collections the engine reads. -/
structure Db where
  flows : List (String × Flow)
  agents : List (String × AgentSpec)

/-- External world of one run: the database and the AI service. -/
structure Env where
  ai : AIEnv
  db : Db

/-- `execute_agent_node` (src/flow_runner.py:166-176): a falsy `agent_id`
raises a generic exception, otherwise the agent runner is invoked. -/
def execute_agent_node (agents : List (String × AgentSpec)) (node : FlowNode)
    (input_data : Val) : POut Val :=
  match node.agent_id with
  | none => .raise ("Agent node " ++ node.id ++ " missing agent_id")
  | some aid =>
      if aid = "" then .raise ("Agent node " ++ node.id ++ " missing agent_id")
      else run_agent agents aid input_data

/-- `run_flow_node` (src/flow_runner.py:178-191): run the nested flow and
take `final_data` from its result dict, defaulting to the unchanged input
when that key is absent (which is the case for a failed nested run). -/
def run_flow_node (runNested : String → Val → RunResult) (node : FlowNode)
    (input_data : Val) : POut Val :=
  match node.flow_id with
  | none => .raise ("Flow node " ++ node.id ++ " missing flow_id")
  | some fid =>
      if fid = "" then .raise ("Flow node " ++ node.id ++ " missing flow_id")
      else
        match runNested fid input_data with
        | .ok res _ => .ok (res.final_data.getD input_data)
        | .exit c _ => .exit c
        | .err m _ => .raise m
        | .stuck => .stuck

/-- `execute_node` (src/flow_runner.py:152-164): dispatch on the node
`type`; anything that is not `agent` or `flow` passes the data through. -/
def execute_node (agents : List (String × AgentSpec))
    (runNested : String → Val → RunResult) (node : FlowNode)
    (input_data : Val) : POut Val :=
  match node.type with
  | some "agent" => execute_agent_node agents node input_data
  | some "flow" => run_flow_node runNested node input_data
  | _ => .ok input_data

/-- The linear search for the current node (src/flow_runner.py:62-66). -/
def findNode (nodes : List FlowNode) (node_id : String) : Option FlowNode :=
  nodes.find? (fun n => n.id = node_id)

/-- `max_iterations` (src/flow_runner.py:55). -/
def max_iterations : Nat := 20

/-- Final status update of `flow_runner` (src/flow_runner.py:137-150):
`completed` only when the loop stopped strictly below the bound. -/
def finishRun (flow_id : String) (iteration : Nat) (current_data : Val)
    (run_rec : RunRecord) : RunResult :=
  let final_status := if iteration < max_iterations then "completed" else "timeout"
  .ok
    { status := final_status, flow_id := flow_id, error := none,
      final_data := some current_data, iterations := some iteration,
      last_node := none }
    { run_rec with status := final_status, final_data := some current_data }

/-- The `while` loop of `flow_runner` (src/flow_runner.py:58-135),
parameterized by the node executor.  `remaining` is
`max_iterations - iteration`; the loop is entered with a truthy
`current_node_id`.  The success log entry stores the Python variable
`current_data` AFTER the `current_data = node_output` reassignment
(src/flow_runner.py:77 and 83), which the model reproduces verbatim. -/
def runLoop (execNode : FlowNode → Val → POut Val) (ai : AIEnv)
    (flow_id : String) (nodes : List FlowNode) (edges : List Edge) :
    Nat → Nat → String → Val → RunRecord → RunResult
  | 0, iteration, _, current_data, run_rec =>
      finishRun flow_id iteration current_data run_rec
  | remaining + 1, iteration, current_node_id, current_data, run_rec =>
      let iter' := iteration + 1
      match findNode nodes current_node_id with
      | none => finishRun flow_id iter' current_data run_rec
      | some node =>
          match execNode node current_data with
          | .ok node_output =>
              let entry : LogEntry :=
                { node_id := current_node_id,
                  node_name := node.name.getD "Unnamed",
                  input_data := node_output,
                  output_data := some node_output,
                  error := none, status := "success", iteration := iter' }
              let rec' :=
                { run_rec with
                    execution_log := run_rec.execution_log ++ [entry],
                    current_data := some node_output }
              match get_next_node_by_conditions ai edges current_node_id node_output with
              | some t =>
                  if t = "" then finishRun flow_id iter' node_output rec'
                  else runLoop execNode ai flow_id nodes edges remaining iter' t node_output rec'
              | none => finishRun flow_id iter' node_output rec'
          | .raise e =>
              let entry : LogEntry :=
                { node_id := current_node_id,
                  node_name := node.name.getD "Unnamed",
                  input_data := current_data,
                  output_data := none,
                  error := some e, status := "failed", iteration := iter' }
              .ok
                { status := "failed", flow_id := flow_id, error := some e,
                  final_data := none, iterations := none,
                  last_node := some current_node_id }
                { run_rec with
                    execution_log := run_rec.execution_log ++ [entry],
                    status := "failed", error := some e }
          | .exit c => .exit c run_rec
          | .stuck => .stuck

/-- Entry-node resolution (src/flow_runner.py:30-51): an `entry_point`
field wins even when falsy; otherwise the first node that is no edge's
target; a falsy candidate falls back to the first node; a still-falsy
result means `raise Exception('No entry point found in flow')`, modelled
as `none`. -/
def resolveEntry (flow : Flow) : Option String :=
  let initial : Option String :=
    match flow.entry_point with
    | some s => some s
    | none =>
        (flow.nodes.find?
          (fun n => ¬flow.edges.any (fun e => e.target = some n.id))).map (·.id)
  let withFallback : Option String :=
    match initial with
    | some s => if s = "" then (flow.nodes.head?).map (·.id) else some s
    | none => (flow.nodes.head?).map (·.id)
  match withFallback with
  | some s => if s = "" then none else some s
  | none => none

/-- `flow_runner` (src/flow_runner.py:9-150).  `fuel` bounds only the
nested-flow recursion depth of the model (the loop itself is bounded by
`max_iterations` as in the source); every theorem below supplies enough
fuel.  The run record is inserted (status `running`, empty log) before
entry-point resolution, exactly as the source inserts into `db.runs`
before looking for the entry node. -/
def flow_runner (env : Env) : Nat → String → Val → RunResult
  | 0, _, _ => .stuck
  | fuel + 1, flow_id, user_input_data =>
      match alookup env.db.flows flow_id with
      | none => .err "Flow not found" none
      | some flow =>
          let rec0 : RunRecord :=
            { status := "running", input_data := user_input_data,
              execution_log := [], current_data := none,
              final_data := none, error := none }
          match resolveEntry flow with
          | none => .err "No entry point found in flow" (some rec0)
          | some entry =>
              runLoop
                (execute_node env.db.agents (fun fid inp => flow_runner env fuel fid inp))
                env.ai flow_id flow.nodes flow.edges
                max_iterations 0 entry user_input_data rec0

/-! ### The spec's deterministic condition grammar

Modelled from the spec: §4.4 describes a deterministic evaluator over a
restricted grammar — dotted-path references compared to literals by
equality or numeric comparison, combined with AND/OR — that is supposed to
be applied before the semantic oracle.  `src/edge_condition_checker.py`
contains no such evaluator (its docstring says "using LLM evaluation
ONLY"), so the recognizer below follows the spec's words and serves only
as the comparison point for the refinement claim C3. -/

/-- A character allowed in a dotted-path reference. -/
def pathChar (c : Char) : Bool :=
  c.isAlpha || c.isDigit || c == '_' || c == '.'

/-- Split a character list on single spaces. -/
def wordsAux : List Char → List Char → List (List Char)
  | [], cur => [cur.reverse]
  | c :: rest, cur =>
      if c == ' ' then cur.reverse :: wordsAux rest []
      else wordsAux rest (c :: cur)

/-- A dotted-path token (`output.x`, `output.action_type`, ...). -/
def isPathTok (w : List Char) : Bool :=
  !w.isEmpty && w.all pathChar && w.any (· == '.')

/-- An equality or numeric-comparison operator token. -/
def isCmpTok (w : List Char) : Bool :=
  w == ['=', '='] || w == ['=', '=', '='] || w == ['!', '='] ||
  w == ['>'] || w == ['<'] || w == ['>', '='] || w == ['<', '=']

/-- A literal token: an integer or a boolean. -/
def isLitTok (w : List Char) : Bool :=
  (!w.isEmpty && w.all Char.isDigit) ||
  w == ['t', 'r', 'u', 'e'] || w == ['f', 'a', 'l', 's', 'e']

/-- An AND/OR connective token. -/
def isConnTok (w : List Char) : Bool :=
  w == ['&', '&'] || w == ['|', '|']

/-- Token sequence of the restricted grammar: comparisons of dotted paths
to literals, chained by AND/OR. -/
def atomsOk : List (List Char) → Bool
  | p :: op :: l :: rest =>
      isPathTok p && isCmpTok op && isLitTok l &&
        (match rest with
         | [] => true
         | b :: rest' => isConnTok b && atomsOk rest')
  | _ => false

/-- Modelled from the spec: the restricted deterministic condition grammar
of §4.4 (dotted path, equality / numeric comparison, AND/OR), absent from
`src/`. -/
def specDeterministicGrammar (s : String) : Bool :=
  atomsOk (wordsAux s.data [])

/-! ### Projections on run results, and concrete fixtures -/

/-- Status of the dict returned by `flow_runner` (when it returned). -/
def statusOf : RunResult → Option String
  | .ok res _ => some res.status
  | _ => none

/-- `iterations` of the returned dict (absent on a failure return). -/
def iterationsOf : RunResult → Option Nat
  | .ok res _ => res.iterations
  | _ => none

/-- The run document left in the `runs` collection, when it exists. -/
def recOf : RunResult → Option RunRecord
  | .ok _ r => some r
  | .exit _ r => some r
  | .err _ r => r
  | .stuck => none

/-- Length of the persisted execution log. -/
def logLengthOf (r : RunResult) : Option Nat :=
  (recOf r).map (fun rec' => rec'.execution_log.length)

/-- An AI service that always raises (never actually consulted in the
fixture flows below, whose edges are all unconditioned). -/
def aiUnavailable : AIEnv :=
  { call := fun _ _ => .excn "service unavailable", jsonLoads := fun _ => none }

/-- An AI service answering `true` exactly for the condition text `yes`. -/
def routeAI : AIEnv :=
  { call := fun c _ => if c = "yes" then .reply "true" else .reply "false",
    jsonLoads := fun _ => none }

/-- Agent whose only node function fragment fails to load. -/
def agentBadFrag : AgentSpec :=
  { name := some "alpha",
    nodes := [{ name := some "helper",
                func := some (.bad "SyntaxError: invalid syntax"),
                parameters := [] }],
    func := some (.frag []) }

/-- Agent whose fragments load but whose entry name is not defined by any
of them. -/
def agentNoEntry : AgentSpec :=
  { name := some "beta", nodes := [],
    func := some (.frag [("gamma", fun v => .ok v)]) }

/-- Agent whose entry function replaces the input by a fresh output. -/
def agentSwap : AgentSpec :=
  { name := some "agentA", nodes := [],
    func := some (.frag [("agentA", fun _ => .ok (.vDict [("y", .vInt 7)]))]) }

/-- A passthrough flow node. -/
def passNode (id : String) : FlowNode :=
  { id := id, name := none, type := none, agent_id := none, flow_id := none }

/-- An agent flow node. -/
def agentNode (id : String) (aid : Option String) : FlowNode :=
  { id := id, name := none, type := some "agent", agent_id := aid, flow_id := none }

/-- An unconditioned edge. -/
def plainEdge (src tgt : String) : Edge :=
  { source := some src, target := some tgt, condition := none }

/-- Flow F1: one agent node whose agent has a fragment that fails to load. -/
def flowBadFrag : Flow :=
  { entry_point := some "n1", nodes := [agentNode "n1" (some "A1")], edges := [] }

/-- Flow F2: one agent node whose agent lacks its entry function. -/
def flowNoEntryFn : Flow :=
  { entry_point := some "n1", nodes := [agentNode "n1" (some "A2")], edges := [] }

/-- Flow F3: one agent node that transforms its input. -/
def flowSwap : Flow :=
  { entry_point := some "n1", nodes := [agentNode "n1" (some "A3")], edges := [] }

/-- Flow F4: a transforming agent node followed by a node that fails
(missing `agent_id`), the failure scenario of spec §8. -/
def flowTwo : Flow :=
  { entry_point := some "n1",
    nodes := [agentNode "n1" (some "A3"), agentNode "n2" none],
    edges := [plainEdge "n1" "n2"] }

/-- Flow F5: a 20-node unconditioned passthrough chain ending cleanly. -/
def flowChain : Flow :=
  { entry_point := some "n1",
    nodes := (List.range 20).map (fun i => passNode ("n" ++ toString (i + 1))),
    edges := (List.range 19).map
      (fun i => plainEdge ("n" ++ toString (i + 1)) ("n" ++ toString (i + 2))) }

/-- Flow F6: a single passthrough node with an always-true self-edge. -/
def flowLoop : Flow :=
  { entry_point := some "a", nodes := [passNode "a"],
    edges := [plainEdge "a" "a"] }

/-- Flow F9: one agent node with no `agent_id`. -/
def flowUnresolved : Flow :=
  { entry_point := some "u1", nodes := [agentNode "u1" none], edges := [] }

/-- Flow FC: a child flow that fails (unresolved agent node). -/
def flowChild : Flow :=
  { entry_point := some "c1", nodes := [agentNode "c1" none], edges := [] }

/-- Flow FP: a parent flow whose first node runs the failing child FC. -/
def flowParent : Flow :=
  { entry_point := some "p1",
    nodes := [{ id := "p1", name := none, type := some "flow",
                agent_id := none, flow_id := some "FC" },
              passNode "p2"],
    edges := [plainEdge "p1" "p2"] }

/-- Flow FO: a single passthrough node with no outgoing edges. -/
def flowOne : Flow :=
  { entry_point := some "s1", nodes := [passNode "s1"], edges := [] }

/-- Database holding all fixture flows and agents. -/
def fixtureDb : Db :=
  { flows := [("F1", flowBadFrag), ("F2", flowNoEntryFn), ("F3", flowSwap),
              ("F4", flowTwo),
              ("F5", flowChain), ("F6", flowLoop), ("F9", flowUnresolved),
              ("FC", flowChild), ("FP", flowParent), ("FO", flowOne)],
    agents := [("A1", agentBadFrag), ("A2", agentNoEntry), ("A3", agentSwap)] }

/-- Fixture environment. -/
def env0 : Env := { ai := aiUnavailable, db := fixtureDb }

/-- Edges of the first-match-wins scenario of §8: conditions false, true,
true (under `routeAI`) towards targets A, B, C. -/
def edgesABC : List Edge :=
  [{ source := some "s", target := some "A", condition := some "no" },
   { source := some "s", target := some "B", condition := some "yes" },
   { source := some "s", target := some "C", condition := some "yes" }]

/-- Non-thunked `Option` alternative (Python `x if x is not None else y`). -/
def optOr {α : Type} : Option α → Option α → Option α
  | some v, _ => some v
  | none, b => b

/-! ### Helper lemmas -/

theorem alookup_append {α : Type} (xs ys : List (String × α)) (k : String) :
    alookup (xs ++ ys) k = optOr (alookup xs k) (alookup ys k) := by
  induction xs with
  | nil => simp [alookup, optOr]
  | cons p rest ih =>
      by_cases h : p.1 = k
      · simp [alookup, h, optOr]
      · simp [alookup, h, ih]

theorem alookup_mapUpdate (a b : List (String × Val)) (k : String) :
    alookup (a.map (fun p => (p.1, (alookup b p.1).getD p.2))) k
      = (alookup a k).map (fun v => (alookup b k).getD v) := by
  induction a with
  | nil => simp [alookup]
  | cons p rest ih =>
      by_cases h : p.1 = k
      · simp [alookup, h]
      · simp [alookup, h, ih]

theorem alookup_filterNone (a b : List (String × Val)) (k : String) :
    alookup (b.filter (fun p => (alookup a p.1).isNone)) k
      = if (alookup a k).isNone then alookup b k else none := by
  induction b with
  | nil => simp [alookup]
  | cons p rest ih =>
      obtain ⟨k1, v1⟩ := p
      by_cases h : k1 = k
      · subst h
        by_cases hk : (alookup a k1).isNone
        · simp [List.filter_cons, hk, alookup]
        · simp [List.filter_cons, hk, alookup, ih]
      · by_cases hk : (alookup a k1).isNone
        · simp [List.filter_cons, hk, alookup, h, ih]
        · simp [List.filter_cons, hk, alookup, h, ih]

theorem alookup_pyMerge (s d : List (String × Val)) (k : String) :
    alookup (pyMerge s d) k = optOr (alookup d k) (alookup s k) := by
  unfold pyMerge
  rw [alookup_append, alookup_mapUpdate, alookup_filterNone]
  cases hs : alookup s k <;> cases hd : alookup d k <;> simp [optOr]

theorem get_next_cons_skip_src (ai : AIEnv) (e : Edge) (edges : List Edge)
    (cur : String) (out : Val) (h : ¬e.source = some cur) :
    get_next_node_by_conditions ai (e :: edges) cur out
      = get_next_node_by_conditions ai edges cur out := by
  simp [get_next_node_by_conditions, List.filter_cons, h]

theorem get_next_cons_skip_false (ai : AIEnv) (e : Edge) (edges : List Edge)
    (cur : String) (out : Val) (hsrc : e.source = some cur)
    (hfalse : truthy (check_edge_condition ai (e.condition.getD "") out) = false) :
    get_next_node_by_conditions ai (e :: edges) cur out
      = get_next_node_by_conditions ai edges cur out := by
  simp [get_next_node_by_conditions, List.filter_cons, hsrc, List.find?_cons, hfalse]

theorem get_next_cons_hit (ai : AIEnv) (e : Edge) (edges : List Edge)
    (cur : String) (out : Val) (hsrc : e.source = some cur)
    (htrue : truthy (check_edge_condition ai (e.condition.getD "") out) = true) :
    get_next_node_by_conditions ai (e :: edges) cur out = e.target := by
  simp [get_next_node_by_conditions, List.filter_cons, hsrc, List.find?_cons, htrue]

theorem finishRun_status_spec (fid : String) (it : Nat) (d : Val)
    (run_rec : RunRecord) (res : FlowResult) (rec' : RunRecord)
    (h : finishRun fid it d run_rec = .ok res rec') :
    ∃ k, res.iterations = some k ∧ (res.status = "completed" ↔ k < max_iterations) := by
  simp only [finishRun, RunResult.ok.injEq] at h
  obtain ⟨h1, h2⟩ := h
  subst h1
  refine ⟨it, rfl, ?_⟩
  by_cases hlt : it < max_iterations
  · simp [hlt]
  · simp only [hlt, if_false]
    decide

theorem runLoop_succ_raise (execNode : FlowNode → Val → POut Val) (ai : AIEnv)
    (fid : String) (nodes : List FlowNode) (edges : List Edge)
    (r it : Nat) (cur : String) (d : Val) (run_rec : RunRecord)
    (n : FlowNode) (e : String)
    (hfind : findNode nodes cur = some n) (hexec : execNode n d = .raise e) :
    runLoop execNode ai fid nodes edges (r + 1) it cur d run_rec = .ok
      { status := "failed", flow_id := fid, error := some e, final_data := none,
        iterations := none, last_node := some cur }
      { run_rec with
          execution_log := run_rec.execution_log ++
            [{ node_id := cur, node_name := n.name.getD "Unnamed", input_data := d,
               output_data := none, error := some e, status := "failed",
               iteration := it + 1 }],
          status := "failed", error := some e } := by
  simp [runLoop, hfind, hexec]

theorem runLoop_ok_final_status (execNode : FlowNode → Val → POut Val) (ai : AIEnv)
    (fid : String) (nodes : List FlowNode) (edges : List Edge) :
    ∀ (r it : Nat) (cur : String) (d : Val) (run_rec : RunRecord)
      (res : FlowResult) (rec' : RunRecord),
      runLoop execNode ai fid nodes edges r it cur d run_rec = .ok res rec' →
      res.final_data.isSome →
      ∃ k, res.iterations = some k ∧ (res.status = "completed" ↔ k < max_iterations) := by
  intro r
  induction r with
  | zero =>
      intro it cur d run_rec res rec' h _
      exact finishRun_status_spec fid it d run_rec res rec' h
  | succ r ih =>
      intro it cur d run_rec res rec' h hfd
      simp only [runLoop] at h
      cases hfind : findNode nodes cur with
      | none =>
          rw [hfind] at h
          exact finishRun_status_spec fid (it + 1) d run_rec res rec' h
      | some node =>
          rw [hfind] at h
          simp only at h
          cases hexec : execNode node d with
          | ok out =>
              rw [hexec] at h
              simp only at h
              cases hnext : get_next_node_by_conditions ai edges cur out with
              | none =>
                  rw [hnext] at h
                  exact finishRun_status_spec fid (it + 1) out _ res rec' h
              | some t =>
                  rw [hnext] at h
                  simp only at h
                  by_cases ht : t = ""
                  · rw [if_pos ht] at h
                    exact finishRun_status_spec fid (it + 1) out _ res rec' h
                  · rw [if_neg ht] at h
                    exact ih (it + 1) t out _ res rec' h hfd
          | raise e =>
              rw [hexec] at h
              simp only [RunResult.ok.injEq] at h
              obtain ⟨h1, _⟩ := h
              subst h1
              simp at hfd
          | exit c =>
              rw [hexec] at h
              simp at h
          | stuck =>
              rw [hexec] at h
              simp at h

theorem runLoop_always_next (execNode : FlowNode → Val → POut Val) (ai : AIEnv)
    (fid : String) (nodes : List FlowNode) (edges : List Edge)
    (P : String → Prop) (fNode : String → FlowNode)
    (fOut : String → Val → Val) (fNext : String → Val → String)
    (hFind : ∀ id, P id → findNode nodes id = some (fNode id))
    (hExec : ∀ id dd, P id → execNode (fNode id) dd = .ok (fOut id dd))
    (hNext : ∀ id dd, P id →
      get_next_node_by_conditions ai edges id dd = some (fNext id dd) ∧
      fNext id dd ≠ "" ∧ P (fNext id dd)) :
    ∀ (r it : Nat) (cur : String) (d : Val) (run_rec : RunRecord), P cur →
      ∃ res rec',
        runLoop execNode ai fid nodes edges r it cur d run_rec = .ok res rec' ∧
        res.status = (if it + r < max_iterations then "completed" else "timeout") ∧
        res.iterations = some (it + r) ∧
        rec'.execution_log.length = run_rec.execution_log.length + r := by
  intro r
  induction r with
  | zero =>
      intro it cur d run_rec _
      refine ⟨_, _, rfl, ?_, ?_, ?_⟩ <;> simp [finishRun]
  | succ r ih =>
      intro it cur d run_rec hP
      obtain ⟨hn, hne, hP'⟩ := hNext cur (fOut cur d) hP
      obtain ⟨res, rec', hrun, hst, hit, hlen⟩ :=
        ih (it + 1) (fNext cur (fOut cur d)) (fOut cur d)
          { run_rec with
              execution_log := run_rec.execution_log ++
                [{ node_id := cur, node_name := (fNode cur).name.getD "Unnamed",
                   input_data := fOut cur d, output_data := some (fOut cur d),
                   error := none, status := "success", iteration := it + 1 }],
              current_data := some (fOut cur d) } hP'
      refine ⟨res, rec', ?_, ?_, ?_, ?_⟩
      · simp only [runLoop, hFind cur hP, hExec cur d hP, hn]
        rw [if_neg hne]
        exact hrun
      · rw [hst]
        have harith : it + 1 + r = it + (r + 1) := by omega
        rw [harith]
      · rw [hit]
        have harith : it + 1 + r = it + (r + 1) := by omega
        rw [harith]
      · rw [hlen]
        simp only [List.length_append, List.length_cons, List.length_nil]
        omega

/-! ### Claim theorems -/

/-- Claim C1 (code bug): the claim — and spec §7 — say a failure while
loading an agent's code fragments or while looking up the agent's entry
function terminates only that run and is surfaced as a node-level failure
in the RunRecord.  The code instead calls `sys.exit(1)`
(src/agent_runner.py:62,75,130), raising `SystemExit`, which the
`except Exception` handler in `flow_runner` cannot catch: evaluating the
engine at both failing inputs, the outcome is process termination
(`RunResult.exit 1`) with the run record left in status `running` and an
empty execution log — no node-level failure is recorded, and the hosting
process (with any concurrent runs) dies. -/
theorem claim1_load_failure_exits_process :
    flow_runner env0 1 "F1" (.vDict []) = .exit 1
      { status := "running", input_data := .vDict [], execution_log := [],
        current_data := none, final_data := none, error := none } ∧
    flow_runner env0 1 "F2" (.vDict []) = .exit 1
      { status := "running", input_data := .vDict [], execution_log := [],
        current_data := none, final_data := none, error := none } ∧
    run_agent fixtureDb.agents "A1" (.vDict []) = .exit 1 ∧
    run_agent fixtureDb.agents "A2" (.vDict []) = .exit 1 :=
  ⟨rfl, rfl, rfl, rfl⟩

/-- Claim C2 (code bug): the StepLog `input_data` field is supposed to
record the data the node was invoked with, distinct from its output.
The code assigns `current_data = node_output` BEFORE building the log
entry and then stores `current_data` in the `input_data` field
(src/flow_runner.py:77,83), so a success entry's `input_data` equals its
`output_data`.  In the two-node failure scenario of spec §8 (run of flow
F4 below, invoked with x=1): the first entry records the node's output
y=7 in BOTH fields — not the invocation input x=1 — while the first
node's output is indeed preserved in the log. -/
theorem claim2_step_log_input_field :
    ((recOf (flow_runner env0 1 "F4" (.vDict [("x", .vInt 1)]))).map
      (fun r => r.execution_log.map
        (fun e => (e.status, e.input_data, e.output_data, e.error))))
      = some [("success", .vDict [("y", .vInt 7)], some (.vDict [("y", .vInt 7)]), none),
              ("failed", .vDict [("y", .vInt 7)], none,
                some "Agent node n2 missing agent_id")] ∧
    statusOf (flow_runner env0 1 "F4" (.vDict [("x", .vInt 1)])) = some "failed" ∧
    (Val.vDict [("y", .vInt 7)]) ≠ .vDict [("x", .vInt 1)] :=
  ⟨rfl, rfl, by simp⟩

/-- Claim C3, counterexample: the condition `output.x == 1` is in the
spec's restricted deterministic grammar, yet its verdict is entirely
determined by the semantic oracle's reply — two oracles yield opposite
verdicts on the same condition and output — so no deterministic evaluator
is applied first: `check_edge_condition` consults the LLM for every
non-empty condition (its docstring says "LLM evaluation ONLY"). -/
theorem claim3_counterexample :
    specDeterministicGrammar "output.x == 1" = true ∧
    check_edge_condition ⟨fun _ _ => .reply "true", fun _ => none⟩ "output.x == 1"
      (.vDict [("output", .vDict [("x", .vInt 2)])]) = .vBool true ∧
    check_edge_condition ⟨fun _ _ => .reply "false", fun _ => none⟩ "output.x == 1"
      (.vDict [("output", .vDict [("x", .vInt 2)])]) = .vBool false :=
  ⟨rfl, rfl, rfl⟩

/-- Claim C3, amended: only the empty/whitespace-condition rule is
deterministic (true, oracle not consulted); every other condition —
including conditions the spec's restricted grammar parses — is decided by
the semantic oracle alone: an oracle answering `true` (resp. `false`)
makes the condition true (resp. false). -/
theorem claim3_oracle_decides_nonempty :
    (∀ (ai : AIEnv) (c : String) (out : Val), pyStrip c = "" →
      check_edge_condition ai c out = .vBool true) ∧
    (∀ (jl : String → Option Val) (c : String) (out : Val), pyStrip c ≠ "" →
      check_edge_condition ⟨fun _ _ => .reply "true", jl⟩ c out = .vBool true ∧
      check_edge_condition ⟨fun _ _ => .reply "false", jl⟩ c out = .vBool false) := by
  constructor
  · intro ai c out h
    unfold check_edge_condition
    rw [if_pos (Or.inr h)]
  · intro jl c out h
    have hc : ¬(c = "" ∨ pyStrip c = "") := by
      rintro (h1 | h2)
      · subst h1; exact h rfl
      · exact h h2
    refine ⟨?_, ?_⟩ <;> (unfold check_edge_condition; rw [if_neg hc]; rfl)

/-- Claim C3, witness: the amended theorem applied to the grammar-parseable
condition `output.x == 1` and to an empty condition. -/
theorem claim3_witness :
    check_edge_condition routeAI "" (.vDict []) = .vBool true ∧
    check_edge_condition ⟨fun _ _ => .reply "true", fun _ => none⟩ "output.x == 1"
      (.vDict []) = .vBool true ∧
    check_edge_condition ⟨fun _ _ => .reply "false", fun _ => none⟩ "output.x == 1"
      (.vDict []) = .vBool false :=
  ⟨claim3_oracle_decides_nonempty.1 routeAI "" (.vDict []) rfl,
   (claim3_oracle_decides_nonempty.2 (fun _ => none) "output.x == 1" (.vDict [])
     (by decide)).1,
   (claim3_oracle_decides_nonempty.2 (fun _ => none) "output.x == 1" (.vDict [])
     (by decide)).2⟩

/-- Claim C4: the router filters edges by source, evaluates conditions in
declared order, treats an empty/absent condition as true, returns the
first true edge's target and `none` when no condition is true; on the §8
scenario `[(false,A),(true,B),(true,C)]` it returns B, never C. -/
theorem claim4_first_match_routing :
    (∀ out : Val, get_next_node_by_conditions routeAI edgesABC "s" out = some "B") ∧
    (∀ (ai : AIEnv) (out : Val), truthy (check_edge_condition ai "" out) = true) ∧
    (∀ (ai : AIEnv) (pre : List Edge) (e : Edge) (post : List Edge)
       (cur : String) (out : Val),
      (∀ e' ∈ pre, e'.source = some cur →
        truthy (check_edge_condition ai (e'.condition.getD "") out) = false) →
      e.source = some cur →
      truthy (check_edge_condition ai (e.condition.getD "") out) = true →
      get_next_node_by_conditions ai (pre ++ e :: post) cur out = e.target) ∧
    (∀ (ai : AIEnv) (edges : List Edge) (cur : String) (out : Val),
      (∀ e ∈ edges, e.source = some cur →
        truthy (check_edge_condition ai (e.condition.getD "") out) = false) →
      get_next_node_by_conditions ai edges cur out = none) := by
  refine ⟨fun _ => rfl, fun _ _ => rfl, ?_, ?_⟩
  · intro ai pre e post cur out
    induction pre with
    | nil =>
        intro _ hsrc htrue
        exact get_next_cons_hit ai e post cur out hsrc htrue
    | cons e' rest ih =>
        intro hpre hsrc htrue
        simp only [List.cons_append]
        by_cases h : e'.source = some cur
        · rw [get_next_cons_skip_false ai e' (rest ++ e :: post) cur out h
            (hpre e' (by simp) h)]
          exact ih (fun x hx hs => hpre x (by simp [hx]) hs) hsrc htrue
        · rw [get_next_cons_skip_src ai e' (rest ++ e :: post) cur out h]
          exact ih (fun x hx hs => hpre x (by simp [hx]) hs) hsrc htrue
  · intro ai edges cur out
    induction edges with
    | nil => intro _; rfl
    | cons e rest ih =>
        intro h
        by_cases hs : e.source = some cur
        · rw [get_next_cons_skip_false ai e rest cur out hs (h e (by simp) hs)]
          exact ih (fun x hx hsx => h x (by simp [hx]) hsx)
        · rw [get_next_cons_skip_src ai e rest cur out hs]
          exact ih (fun x hx hsx => h x (by simp [hx]) hsx)

/-- Claim C5, counterexample: flow F5 is a 20-node unconditioned chain;
its last node n20 has no outgoing edge, so the run ends by a clean
routing no-match after 20 successful steps — yet the final status is
`timeout`, not `completed`, because `flow_runner` marks `completed` only
when `iteration < max_iterations` (src/flow_runner.py:138).  This refutes
"stops with status completed regardless of how many steps were executed
before the no-match". -/
theorem claim5_counterexample :
    get_next_node_by_conditions env0.ai flowChain.edges "n20" (.vDict []) = none ∧
    statusOf (flow_runner env0 1 "F5" (.vDict [])) = some "timeout" ∧
    iterationsOf (flow_runner env0 1 "F5" (.vDict [])) = some 20 ∧
    ("timeout" : String) ≠ "completed" :=
  ⟨rfl, rfl, rfl, by decide⟩

/-- Claim C5, amended: a run that stops by a routing no-match (or any
other normal finalization, recognizable by a present `final_data`) is
marked `completed` exactly when fewer than `max_iterations` (20) node
executions occurred; a no-match on the 20th step yields `timeout`. -/
theorem claim5_completed_iff_below_bound (env : Env) (fuel : Nat) (fid : String)
    (input : Val) (res : FlowResult) (rec' : RunRecord)
    (h : flow_runner env fuel fid input = .ok res rec')
    (hfd : res.final_data.isSome) :
    ∃ k, res.iterations = some k ∧ (res.status = "completed" ↔ k < max_iterations) := by
  cases fuel with
  | zero => simp [flow_runner] at h
  | succ f =>
      simp only [flow_runner] at h
      cases hflow : alookup env.db.flows fid with
      | none => rw [hflow] at h; simp at h
      | some flow =>
          rw [hflow] at h
          simp only at h
          cases hentry : resolveEntry flow with
          | none => rw [hentry] at h; simp at h
          | some entry =>
              rw [hentry] at h
              simp only at h
              exact runLoop_ok_final_status _ _ _ _ _ _ _ _ _ _ res rec' h hfd

/-- Claim C5, witness: the amended theorem applied to the one-node flow
FO, whose single no-match termination after 1 step is `completed`. -/
theorem claim5_witness :
    ∃ k, (FlowResult.iterations
        { status := "completed", flow_id := "FO", error := none,
          final_data := some (.vDict []), iterations := some 1,
          last_node := none }) = some k ∧
      ((FlowResult.status
        { status := "completed", flow_id := "FO", error := none,
          final_data := some (.vDict []), iterations := some 1,
          last_node := none }) = "completed" ↔ k < max_iterations) :=
  claim5_completed_iff_below_bound env0 1 "FO" (.vDict [])
    { status := "completed", flow_id := "FO", error := none,
      final_data := some (.vDict []), iterations := some 1, last_node := none }
    { status := "completed", input_data := .vDict [],
      execution_log := [{ node_id := "s1", node_name := "Unnamed",
                          input_data := .vDict [], output_data := some (.vDict []),
                          error := none, status := "success", iteration := 1 }],
      current_data := some (.vDict []), final_data := some (.vDict []),
      error := none }
    rfl rfl

/-- Claim C6: for a flow whose routing always finds a (truthy) next node,
whose nodes all execute successfully and are all found, the run executes
exactly `max_iterations` (20) node executions and ends with status
`timeout`, which is distinct from `failed`. -/
theorem claim6_step_bound_timeout (env : Env) (f : Nat) (fid : String) (input : Val)
    (flow : Flow) (entry : String) (P : String → Prop)
    (fNode : String → FlowNode) (fOut : String → Val → Val)
    (fNext : String → Val → String)
    (hflow : alookup env.db.flows fid = some flow)
    (hentry : resolveEntry flow = some entry)
    (hP : P entry)
    (hFind : ∀ id, P id → findNode flow.nodes id = some (fNode id))
    (hExec : ∀ id dd, P id →
      execute_node env.db.agents (fun fid' inp => flow_runner env f fid' inp)
        (fNode id) dd = .ok (fOut id dd))
    (hNext : ∀ id dd, P id →
      get_next_node_by_conditions env.ai flow.edges id dd = some (fNext id dd) ∧
      fNext id dd ≠ "" ∧ P (fNext id dd)) :
    ∃ res rec', flow_runner env (f + 1) fid input = .ok res rec' ∧
      res.status = "timeout" ∧ res.status ≠ "failed" ∧
      res.iterations = some max_iterations ∧
      rec'.execution_log.length = max_iterations := by
  obtain ⟨res, rec', hrun, hst, hit, hlen⟩ :=
    runLoop_always_next
      (execute_node env.db.agents (fun fid' inp => flow_runner env f fid' inp))
      env.ai fid flow.nodes flow.edges P fNode fOut fNext hFind hExec hNext
      max_iterations 0 entry input
      { status := "running", input_data := input, execution_log := [],
        current_data := none, final_data := none, error := none } hP
  have hst' : res.status = "timeout" := by
    rw [hst]; simp
  refine ⟨res, rec', ?_, hst', ?_, ?_, ?_⟩
  · simp only [flow_runner, hflow, hentry]
    exact hrun
  · rw [hst']; decide
  · rw [hit]; simp
  · rw [hlen]; rfl

/-- Claim C6, witness: the theorem applied to flow F6, a single
passthrough node with an always-true self-edge. -/
theorem claim6_witness :
    ∃ res rec', flow_runner env0 1 "F6" (.vDict []) = .ok res rec' ∧
      res.status = "timeout" ∧ res.status ≠ "failed" ∧
      res.iterations = some max_iterations ∧
      rec'.execution_log.length = max_iterations :=
  claim6_step_bound_timeout env0 0 "F6" (.vDict []) flowLoop "a"
    (fun id => id = "a") (fun _ => passNode "a") (fun _ dd => dd) (fun _ _ => "a")
    rfl rfl rfl
    (fun id h => by subst h; rfl)
    (fun id dd h => by subst h; rfl)
    (fun id dd h => by
      subst h
      refine ⟨rfl, ?_, rfl⟩
      show ("a" : String) ≠ ""
      decide)

/-- Claim C7: the parameter binder satisfies
`bind(fn, static)(dynamic) = fn(merge(static, dynamic))` with the dynamic
input winning on key collision, and in particular
`bind(fn, a=1 b=2)(b=9) = fn(a=1 b=9)`. -/
theorem claim7_parameter_override :
    (∀ (α : Type) (fn : List (String × Val) → α) (s d : List (String × Val)),
      create_node_wrapper fn s d = fn (pyMerge s d)) ∧
    (∀ (s d : List (String × Val)) (k : String),
      alookup (pyMerge s d) k = optOr (alookup d k) (alookup s k)) ∧
    (∀ (α : Type) (fn : List (String × Val) → α),
      create_node_wrapper fn [("a", .vInt 1), ("b", .vInt 2)] [("b", .vInt 9)]
        = fn [("a", .vInt 1), ("b", .vInt 9)]) :=
  ⟨fun _ _ _ _ => rfl, alookup_pyMerge, fun _ _ => rfl⟩

/-- Claim C8: condition evaluation never lets a failure escape: an
exception anywhere in the oracle call yields `False`, and an oracle reply
that is neither literal `true`/`false` nor `json.loads`-parseable yields
`False` (the `try/except` structure of the source is reflected in the
totality of `check_edge_condition`, which maps every oracle outcome —
including exceptions — to a value instead of propagating). -/
theorem claim8_failures_default_false :
    (∀ (jl : String → Option Val) (msg c : String) (out : Val), pyStrip c ≠ "" →
      check_edge_condition ⟨fun _ _ => .excn msg, jl⟩ c out = .vBool false) ∧
    (∀ (jl : String → Option Val) (text c : String) (out : Val), pyStrip c ≠ "" →
      pyLower (pyStrip text) ≠ "true" →
      pyLower (pyStrip text) ≠ "false" →
      jl (pyLower (pyStrip text)) = none →
      check_edge_condition ⟨fun _ _ => .reply text, jl⟩ c out = .vBool false) := by
  constructor
  · intro jl msg c out h
    have hc : ¬(c = "" ∨ pyStrip c = "") := by
      rintro (h1 | h2)
      · subst h1; exact h rfl
      · exact h h2
    unfold check_edge_condition
    rw [if_neg hc]
  · intro jl text c out h h2 h3 h4
    have hc : ¬(c = "" ∨ pyStrip c = "") := by
      rintro (h1 | h2)
      · subst h1; exact h rfl
      · exact h h2
    unfold check_edge_condition
    rw [if_neg hc]
    simp only [if_neg h2, if_neg h3, h4]

/-- Claim C8, witness: the theorem applied to an oracle timeout and to the
unparseable reply `maybe` on the condition `x > 1`. -/
theorem claim8_witness :
    check_edge_condition ⟨fun _ _ => .excn "timed out", fun _ => none⟩ "x > 1"
      (.vDict []) = .vBool false ∧
    check_edge_condition ⟨fun _ _ => .reply "maybe", fun _ => none⟩ "x > 1"
      (.vDict []) = .vBool false :=
  ⟨claim8_failures_default_false.1 (fun _ => none) "timed out" "x > 1" (.vDict [])
      (by decide),
   claim8_failures_default_false.2 (fun _ => none) "maybe" "x > 1" (.vDict [])
      (by decide) (by decide) (by decide) rfl⟩

/-- Claim C9, counterexample: running flow F9, whose only node is an agent
node with no `agent_id`, does NOT raise before logging: the missing-id
exception is caught inside the step loop, a failed StepLog entry IS
written to the run's ledger, and the run returns normally with status
`failed`. -/
theorem claim9_counterexample :
    statusOf (flow_runner env0 1 "F9" (.vDict [])) = some "failed" ∧
    logLengthOf (flow_runner env0 1 "F9" (.vDict [])) = some 1 ∧
    ((recOf (flow_runner env0 1 "F9" (.vDict []))).map
      (fun r => r.execution_log.map (fun e => (e.status, e.error))))
      = some [("failed", some "Agent node u1 missing agent_id")] :=
  ⟨rfl, rfl, rfl⟩

/-- Claim C9, amended: a flow whose entry node is an agent node lacking
`agent_id` fails when that node is reached: the generic missing-agent_id
exception (there is no `UnresolvedAgentNode` type) is caught by the
runner, recorded as a failed StepLog entry — the run's only one — and the
run ends with status `failed`; no exception reaches the caller and no
pre-execution check prevents the run from starting. -/
theorem claim9_unresolved_agent_logged_failure (env : Env) (f : Nat) (fid : String)
    (input : Val) (flow : Flow) (entry : String) (n : FlowNode)
    (hflow : alookup env.db.flows fid = some flow)
    (hentry : resolveEntry flow = some entry)
    (hfind : findNode flow.nodes entry = some n)
    (htype : n.type = some "agent")
    (haid : n.agent_id = none) :
    flow_runner env (f + 1) fid input = .ok
      { status := "failed", flow_id := fid,
        error := some ("Agent node " ++ n.id ++ " missing agent_id"),
        final_data := none, iterations := none, last_node := some entry }
      { status := "failed", input_data := input,
        execution_log := [{ node_id := entry, node_name := n.name.getD "Unnamed",
                            input_data := input, output_data := none,
                            error := some ("Agent node " ++ n.id ++ " missing agent_id"),
                            status := "failed", iteration := 1 }],
        current_data := none, final_data := none,
        error := some ("Agent node " ++ n.id ++ " missing agent_id") } := by
  have hexec : execute_node env.db.agents (fun fid' inp => flow_runner env f fid' inp)
      n input = .raise ("Agent node " ++ n.id ++ " missing agent_id") := by
    simp [execute_node, htype, execute_agent_node, haid]
  simp only [flow_runner, hflow, hentry]
  have h20 : max_iterations = 19 + 1 := rfl
  rw [h20]
  rw [runLoop_succ_raise _ env.ai fid flow.nodes flow.edges 19 0 entry input _ n _
    hfind hexec]
  rfl

/-- Claim C9, witness: the amended theorem applied to flow F9. -/
theorem claim9_witness :
    flow_runner env0 1 "F9" (.vDict []) = .ok
      { status := "failed", flow_id := "F9",
        error := some "Agent node u1 missing agent_id",
        final_data := none, iterations := none, last_node := some "u1" }
      { status := "failed", input_data := .vDict [],
        execution_log := [{ node_id := "u1", node_name := "Unnamed",
                            input_data := .vDict [], output_data := none,
                            error := some "Agent node u1 missing agent_id",
                            status := "failed", iteration := 1 }],
        current_data := none, final_data := none,
        error := some "Agent node u1 missing agent_id" } :=
  claim9_unresolved_agent_logged_failure env0 0 "F9" (.vDict []) flowUnresolved "u1"
    (agentNode "u1" none) rfl rfl rfl rfl rfl

/-- Claim C10: a flow-kind node whose nested run returns without a
`final_data` key (as the failure return of `flow_runner` does) does not
fail the parent: `run_flow_node` falls back to the parent's current data,
the step succeeds, and the parent continues routing.  Concretely, parent
flow FP runs child FC (which fails), logs a success step with unchanged
data for the nested node, routes on to p2 and completes. -/
theorem claim10_nested_no_final_data :
    (∀ (agents : List (String × AgentSpec)) (runNested : String → Val → RunResult)
       (node : FlowNode) (input : Val) (fid : String) (res : FlowResult)
       (rec' : RunRecord),
      node.type = some "flow" → node.flow_id = some fid → fid ≠ "" →
      runNested fid input = .ok res rec' → res.final_data = none →
      execute_node agents runNested node input = .ok input) ∧
    statusOf (flow_runner env0 1 "FC" (.vDict [("k", .vInt 5)])) = some "failed" ∧
    statusOf (flow_runner env0 2 "FP" (.vDict [("k", .vInt 5)])) = some "completed" ∧
    ((recOf (flow_runner env0 2 "FP" (.vDict [("k", .vInt 5)]))).map
      (fun r => r.execution_log.map (fun e => (e.node_id, e.status, e.output_data))))
      = some [("p1", "success", some (.vDict [("k", .vInt 5)])),
              ("p2", "success", some (.vDict [("k", .vInt 5)]))] := by
  refine ⟨?_, rfl, rfl, rfl⟩
  intro agents runNested node input fid res rec' h1 h2 h3 h4 h5
  simp [execute_node, h1, run_flow_node, h2, h3, h4, h5]

/-- Claim C10, witness: the general part applied to the parent node p1 of
flow FP running the failing child flow FC. -/
theorem claim10_witness :
    execute_node env0.db.agents (fun fid' inp' => flow_runner env0 1 fid' inp')
      { id := "p1", name := none, type := some "flow",
        agent_id := none, flow_id := some "FC" }
      (.vDict [("k", .vInt 5)]) = .ok (.vDict [("k", .vInt 5)]) :=
  claim10_nested_no_final_data.1 env0.db.agents
    (fun fid' inp' => flow_runner env0 1 fid' inp')
    { id := "p1", name := none, type := some "flow",
      agent_id := none, flow_id := some "FC" }
    (.vDict [("k", .vInt 5)]) "FC"
    { status := "failed", flow_id := "FC",
      error := some "Agent node c1 missing agent_id",
      final_data := none, iterations := none, last_node := some "c1" }
    { status := "failed", input_data := .vDict [("k", .vInt 5)],
      execution_log := [{ node_id := "c1", node_name := "Unnamed",
                          input_data := .vDict [("k", .vInt 5)], output_data := none,
                          error := some "Agent node c1 missing agent_id",
                          status := "failed", iteration := 1 }],
      current_data := none, final_data := none,
      error := some "Agent node c1 missing agent_id" }
    rfl rfl (by decide) rfl rfl

/-- Claim C4, witness: the first-match and no-match parts applied to the
concrete §8 edge list under `routeAI`. -/
theorem claim4_witness :
    get_next_node_by_conditions routeAI edgesABC "s" (.vDict []) = some "B" ∧
    get_next_node_by_conditions routeAI
      [{ source := some "s", target := some "A", condition := some "no" }]
      "s" (.vDict []) = none :=
  ⟨claim4_first_match_routing.2.2.1 routeAI
      [{ source := some "s", target := some "A", condition := some "no" }]
      { source := some "s", target := some "B", condition := some "yes" }
      [{ source := some "s", target := some "C", condition := some "yes" }]
      "s" (.vDict [])
      (by intro e' he' _; simp at he'; subst he'; rfl) rfl rfl,
   claim4_first_match_routing.2.2.2 routeAI
      [{ source := some "s", target := some "A", condition := some "no" }]
      "s" (.vDict [])
      (by intro e he _; simp at he; subst he; rfl)⟩

end VibeFlows
